import Mathlib

/-!
Verification of the 3D U-Net Lightning module (`unet.py`).

The development shallowly embeds the module:

* `Tensor5` models a 5-D tensor (batch, channel, three spatial dims) with
  integer entries; `padLast3` models `torch.nn.functional.pad` on the three
  trailing dimensions with constant value 0, and `center_crop` is translated
  line by line from `UNet.center_crop` (Python floor division `//` is
  `Int.fdiv`).
* `Shape` models tensor shapes; for every layer wired into the network in
  `UNet.__init__` there is a shape-level semantics (`conv3dShape`,
  `batchnorm3dShape`, `reluShape`, `maxpool3dShape`, `convtranspose3dShape`,
  `catShape`, `cropShape`) following the documented PyTorch shape behaviour,
  returning `none` where PyTorch raises a shape error.  `forwardTrace`
  translates `UNet.forward`, additionally emitting the list of operators
  applied (`LOp`), so that claims about the layer order and about the
  operator kinds in the graph can be stated.
* The Lightning hooks (`training_step`, `configure_optimizers`,
  `validation_step`, `validation_end`, `test_step`, `test_end`) are embedded
  over an abstract value type, with the built-in losses kept abstract (their
  floating-point numerics are out of scope); per-batch scalar losses are
  modelled as rationals where means are computed.
-/

/-! ### Tensors and `center_crop` -/

/-- A 5-D tensor: batch size `n`, channels `c`, spatial sizes `d1 d2 d3`,
with integer-valued entries (indices outside the bounds are irrelevant to
every statement below). -/
structure Tensor5 where
  n : Nat
  c : Nat
  d1 : Nat
  d2 : Nat
  d3 : Nat
  data : Nat → Nat → Nat → Nat → Nat → Int

/-- `torch.nn.functional.pad(t, (p3l, p3r, p2l, p2r, p1l, p1r))` with the
default constant mode and value 0: the last dimension is padded by
`(p3l, p3r)`, the next-to-last by `(p2l, p2r)`, and so on.  Negative padding
crops.  Entry `(i, j, a, b, c)` of the result is the entry
`(i, j, a - p1l, b - p2l, c - p3l)` of `t` when that index is in bounds and
0 otherwise. -/
def padLast3 (t : Tensor5) (p3l p3r p2l p2r p1l p1r : Int) : Tensor5 where
  n := t.n
  c := t.c
  d1 := ((t.d1 : Int) + p1l + p1r).toNat
  d2 := ((t.d2 : Int) + p2l + p2r).toNat
  d3 := ((t.d3 : Int) + p3l + p3r).toNat
  data := fun i j a b c =>
    let a' : Int := (a : Int) - p1l
    let b' : Int := (b : Int) - p2l
    let c' : Int := (c : Int) - p3l
    if 0 ≤ a' ∧ a' < (t.d1 : Int) ∧ 0 ≤ b' ∧ b' < (t.d2 : Int) ∧
        0 ≤ c' ∧ c' < (t.d3 : Int) then
      t.data i j a'.toNat b'.toNat c'.toNat
    else 0

/-- `crop1 = (x_encoder.shape[2] - x.shape[2]) // 2` (Python floor division
on possibly negative integers is `Int.fdiv`). -/
def crop1 (x_encoder x : Tensor5) : Int :=
  ((x_encoder.d1 : Int) - (x.d1 : Int)).fdiv 2

/-- `crop2 = (x_encoder.shape[3] - x.shape[3]) // 2`. -/
def crop2 (x_encoder x : Tensor5) : Int :=
  ((x_encoder.d2 : Int) - (x.d2 : Int)).fdiv 2

/-- `crop3 = (x_encoder.shape[4] - x.shape[4]) // 2`. -/
def crop3 (x_encoder x : Tensor5) : Int :=
  ((x_encoder.d3 : Int) - (x.d3 : Int)).fdiv 2

/-- `UNet.center_crop`: crop amounts per spatial dimension, then
`F.pad(x_encoder, (-crop3, -crop3, -crop2, -crop2, -crop1, -crop1))`. -/
def center_crop (x_encoder x : Tensor5) : Tensor5 :=
  padLast3 x_encoder (-(crop3 x_encoder x)) (-(crop3 x_encoder x))
    (-(crop2 x_encoder x)) (-(crop2 x_encoder x))
    (-(crop1 x_encoder x)) (-(crop1 x_encoder x))

/-! ### Shape-level semantics of the layers -/

/-- The shape `(n, c, d1, d2, d3)` of a 5-D tensor. -/
structure Shape where
  n : Nat
  c : Nat
  d1 : Nat
  d2 : Nat
  d3 : Nat
deriving DecidableEq, Repr

/-- Shape semantics of `nn.Conv3d(cin, cout, k)` (stride 1, no padding):
requires `cin` input channels and each spatial size at least `k`; each
spatial size shrinks by `k - 1`. -/
def conv3dShape (cin cout k : Nat) (s : Shape) : Option Shape :=
  if s.c = cin ∧ k ≤ s.d1 ∧ k ≤ s.d2 ∧ k ≤ s.d3 then
    some ⟨s.n, cout, s.d1 - k + 1, s.d2 - k + 1, s.d3 - k + 1⟩
  else none

/-- Shape semantics of `nn.BatchNorm3d(c)`: requires `c` channels and
preserves the shape. -/
def batchnorm3dShape (c : Nat) (s : Shape) : Option Shape :=
  if s.c = c then some s else none

/-- Shape semantics of `nn.ReLU()`: preserves the shape. -/
def reluShape (s : Shape) : Option Shape :=
  some s

/-- Shape semantics of `nn.MaxPool3d(k)` (kernel size and stride `k`):
requires each spatial size at least `k`; each spatial size is floor-divided
by `k`. -/
def maxpool3dShape (k : Nat) (s : Shape) : Option Shape :=
  if k ≤ s.d1 ∧ k ≤ s.d2 ∧ k ≤ s.d3 then
    some ⟨s.n, s.c, s.d1 / k, s.d2 / k, s.d3 / k⟩
  else none

/-- Shape semantics of `nn.ConvTranspose3d(cin, cout, kernel_size := k,
stride := st)`: requires `cin` input channels and nonempty spatial sizes;
each spatial size `d` becomes `st * (d - 1) + k`. -/
def convtranspose3dShape (cin cout k st : Nat) (s : Shape) : Option Shape :=
  if s.c = cin ∧ 1 ≤ s.d1 ∧ 1 ≤ s.d2 ∧ 1 ≤ s.d3 then
    some ⟨s.n, cout, st * (s.d1 - 1) + k, st * (s.d2 - 1) + k, st * (s.d3 - 1) + k⟩
  else none

/-- Shape semantics of `torch.cat((a, b), dim := 1)`: requires every
dimension other than the channel dimension to agree; channels add. -/
def catShape (a b : Shape) : Option Shape :=
  if a.n = b.n ∧ a.d1 = b.d1 ∧ a.d2 = b.d2 ∧ a.d3 = b.d3 then
    some ⟨a.n, a.c + b.c, a.d1, a.d2, a.d3⟩
  else none

/-- Shape of `UNet.center_crop xe x` (always defined: the padded sizes are
never negative): each spatial size `a` of `xe` becomes
`a - 2 * ((a - b) // 2)` where `b` is the corresponding size of `x`. -/
def cropShape (xe x : Shape) : Shape :=
  ⟨xe.n, xe.c,
    ((xe.d1 : Int) - 2 * (((xe.d1 : Int) - (x.d1 : Int)).fdiv 2)).toNat,
    ((xe.d2 : Int) - 2 * (((xe.d2 : Int) - (x.d2 : Int)).fdiv 2)).toNat,
    ((xe.d3 : Int) - 2 * (((xe.d3 : Int) - (x.d3 : Int)).fdiv 2)).toNat⟩

/-- Shape semantics of `create_double_conv([c0, c1, c2])`:
`Conv3d(c0, c1, 3)`, `BatchNorm3d(c1)`, `ReLU`, `Conv3d(c1, c2, 3)`,
`BatchNorm3d(c2)`, `ReLU` in sequence. -/
def doubleConvShape (c0 c1 c2 : Nat) (s : Shape) : Option Shape :=
  (conv3dShape c0 c1 3 s).bind fun s1 =>
  (batchnorm3dShape c1 s1).bind fun s2 =>
  (reluShape s2).bind fun s3 =>
  (conv3dShape c1 c2 3 s3).bind fun s4 =>
  (batchnorm3dShape c2 s4).bind fun s5 =>
  reluShape s5

/-! ### The operator trace of `forward` -/

/-- The kinds of tensor operators applied by `UNet.forward`, with their
wiring parameters; `crop` records the three size differences
`x_encoder.shape[i] - x.shape[i]` seen by `center_crop`. -/
inductive LOp where
  | conv3d (cin cout k : Nat)
  | batchnorm3d (c : Nat)
  | relu
  | maxpool3d (k : Nat)
  | convtranspose3d (cin cout k st : Nat)
  | crop (dd1 dd2 dd3 : Int)
  | cat
deriving DecidableEq, Repr

/-- The operator trace of one `create_double_conv([c0, c1, c2])` block. -/
def doubleConvOps (c0 c1 c2 : Nat) : List LOp :=
  [LOp.conv3d c0 c1 3, LOp.batchnorm3d c1, LOp.relu,
   LOp.conv3d c1 c2 3, LOp.batchnorm3d c2, LOp.relu]

/-- The `crop` trace entry produced by `center_crop` on encoder shape `xe`
and decoder shape `x`. -/
def cropOpOf (xe x : Shape) : LOp :=
  LOp.crop ((xe.d1 : Int) - (x.d1 : Int)) ((xe.d2 : Int) - (x.d2 : Int))
    ((xe.d3 : Int) - (x.d3 : Int))

/-- The fixed operator sequence of `UNet.forward`, parameterised by the
three `crop` entries (whose size differences depend on the input shape):
the four encoder blocks with a max-pool between consecutive blocks, then
three decoder stages (transposed convolution, crop, concatenation, decoder
block), then the final kernel-size-1 convolution. -/
def unetOps (inC outC : Nat) (r1 r2 r3 : LOp) : List LOp :=
  doubleConvOps inC 32 64 ++ [LOp.maxpool3d 2] ++
  doubleConvOps 64 64 128 ++ [LOp.maxpool3d 2] ++
  doubleConvOps 128 128 256 ++ [LOp.maxpool3d 2] ++
  doubleConvOps 256 256 512 ++
  [LOp.convtranspose3d 512 512 2 2, r1, LOp.cat] ++
  doubleConvOps (256 + 512) 256 256 ++
  [LOp.convtranspose3d 256 256 2 2, r2, LOp.cat] ++
  doubleConvOps (128 + 256) 128 128 ++
  [LOp.convtranspose3d 128 128 2 2, r3, LOp.cat] ++
  doubleConvOps (64 + 128) 64 64 ++
  [LOp.conv3d 64 outC 1]

/-- The encoder outputs `x1, x2, x3` (kept for the skip connections) and the
bottom tensor `x4` of `UNet.forward`. -/
structure EncOut where
  x1 : Shape
  x2 : Shape
  x3 : Shape
  x4 : Shape
deriving DecidableEq, Repr

/-- The encoder half of `UNet.forward` (lines `x1 = ...` through
`x = self.encoder_conv4(x)`): the four encoder blocks with a max-pool
between consecutive blocks. -/
def encoderShape (inC : Nat) (s : Shape) : Option EncOut :=
  (doubleConvShape inC 32 64 s).bind fun x1 =>
  (maxpool3dShape 2 x1).bind fun p1 =>
  (doubleConvShape 64 64 128 p1).bind fun x2 =>
  (maxpool3dShape 2 x2).bind fun p2 =>
  (doubleConvShape 128 128 256 p2).bind fun x3 =>
  (maxpool3dShape 2 x3).bind fun p3 =>
  (doubleConvShape 256 256 512 p3).bind fun x4 =>
  some ⟨x1, x2, x3, x4⟩

/-- One decoder stage of `UNet.forward`:
`x = self.upconvI(x)`, `x = torch.cat((self.center_crop(xe, x), x), dim=1)`,
`x = self.decoder_convI(x)`, for the transposed convolution on `uc`
channels and the decoder block `create_double_conv([b0, b1, b2])`.  Also
returns the `crop` trace entry of the stage. -/
def decoderStageShape (uc b0 b1 b2 : Nat) (xe x : Shape) :
    Option (Shape × LOp) :=
  (convtranspose3dShape uc uc 2 2 x).bind fun u =>
  (catShape (cropShape xe u) u).bind fun cc =>
  (doubleConvShape b0 b1 b2 cc).bind fun d =>
  some (d, cropOpOf xe u)

/-- Shape semantics of `UNet.forward` for a `UNet(inC, outC)`, translated
from the source (grouped into the encoder half and the three decoder
stages), together with the operator trace.  `none` models a PyTorch shape
error. -/
def forwardTrace (inC outC : Nat) (s : Shape) : Option (Shape × List LOp) :=
  (encoderShape inC s).bind fun e =>
  (decoderStageShape 512 (256 + 512) 256 256 e.x3 e.x4).bind fun s1 =>
  (decoderStageShape 256 (128 + 256) 128 128 e.x2 s1.1).bind fun s2 =>
  (decoderStageShape 128 (64 + 128) 64 64 e.x1 s2.1).bind fun s3 =>
  (conv3dShape 64 outC 1 s3.1).bind fun out =>
  some (out, unetOps inC outC s1.2 s2.2 s3.2)

/-- The layer order claimed by the specification, written down independently
of `forwardTrace`: one decoder stage is a stride-2 transposed convolution,
concatenation (along the channel dimension) of the center-cropped matching
encoder output with the upsampled tensor, and a decoder double-convolution
block. -/
def decoderStageClaim (uc b0 b1 b2 : Nat) (xe x : Shape) : Option Shape :=
  (convtranspose3dShape uc uc 2 2 x).bind fun u =>
  (catShape (cropShape xe u) u).bind fun cc =>
  doubleConvShape b0 b1 b2 cc

/-- The full layer order claimed by the specification: encoder blocks 1–4
with a 2×2×2 stride-2 max-pool between consecutive blocks, then three
decoder stages against `x3`, `x2`, `x1` in this order, then a final
kernel-size-1 convolution to `outC` channels. -/
def forwardShapeClaim (inC outC : Nat) (s : Shape) : Option Shape :=
  (doubleConvShape inC 32 64 s).bind fun x1 =>
  (maxpool3dShape 2 x1).bind fun p1 =>
  (doubleConvShape 64 64 128 p1).bind fun x2 =>
  (maxpool3dShape 2 x2).bind fun p2 =>
  (doubleConvShape 128 128 256 p2).bind fun x3 =>
  (maxpool3dShape 2 x3).bind fun p3 =>
  (doubleConvShape 256 256 512 p3).bind fun x4 =>
  (decoderStageClaim 512 (256 + 512) 256 256 x3 x4).bind fun d1 =>
  (decoderStageClaim 256 (128 + 256) 128 128 x2 d1).bind fun d2 =>
  (decoderStageClaim 128 (64 + 128) 64 64 x1 d2).bind fun d3 =>
  conv3dShape 64 outC 1 d3

/-- The four operator kinds listed by the specification: 3D convolution,
batch normalization, max-pooling, transposed convolution. -/
def isListedKind : LOp → Bool
  | LOp.conv3d _ _ _ => true
  | LOp.batchnorm3d _ => true
  | LOp.maxpool3d _ => true
  | LOp.convtranspose3d _ _ _ _ => true
  | _ => false

/-- Erase the input-shape-dependent size differences recorded in `crop`
trace entries, keeping the operator kind and wiring parameters. -/
def eraseCropDiffs : LOp → LOp
  | LOp.crop _ _ _ => LOp.crop 0 0 0
  | op => op

/-! ### The Lightning hooks -/

/-- The built-in loss functions the hooks call.  Their floating-point
numerics are outside the embedding; each is an abstract function from a
prediction and a target to a loss value. -/
structure Builtins (V L : Type) where
  bceWithLogitsLoss : V → V → L
  crossEntropy : V → V → L

/-- A training batch: a dict with keys `input` and `masks`. -/
structure TrainBatch (V : Type) where
  input : V
  masks : V

/-- `UNet.training_step`: forward the batch input through the network and
apply `self.criterion` (set to `nn.BCEWithLogitsLoss()` in `__init__`);
return the dict `{"loss": loss}`. -/
def training_step {V L : Type} (B : Builtins V L) (fw : V → V)
    (batch : TrainBatch V) (batchIdx : Nat) : List (String × L) :=
  let input := batch.input
  let masks := batch.masks
  let output := fw input
  let loss := B.bceWithLogitsLoss output masks
  [(("loss"), loss)]

/-- `UNet.validation_step`: unpack the batch as `(x, y)`, forward `x`, and
return `{"val_loss": F.cross_entropy(y_hat, y)}`. -/
def validation_step {V L : Type} (B : Builtins V L) (fw : V → V)
    (batch : V × V) (batchIdx : Nat) : List (String × L) :=
  let x := batch.1
  let y := batch.2
  let y_hat := fw x
  [(("val_loss"), B.crossEntropy y_hat y)]

/-- `UNet.test_step`: unpack the batch as `(x, y)`, forward `x`, and return
`{"test_loss": F.cross_entropy(y_hat, y)}`. -/
def test_step {V L : Type} (B : Builtins V L) (fw : V → V)
    (batch : V × V) (batchIdx : Nat) : List (String × L) :=
  let x := batch.1
  let y := batch.2
  let y_hat := fw x
  [(("test_loss"), B.crossEntropy y_hat y)]

/-- The optimizer algorithms in play. -/
inductive OptimAlgo where
  | sgd
deriving DecidableEq, Repr

/-- A constructed optimizer: algorithm, the parameters handed to it, and
its hyperparameters (as exact rationals). -/
structure Optim (P : Type) where
  algo : OptimAlgo
  params : P
  lr : ℚ
  momentum : ℚ

/-- `UNet.configure_optimizers`:
`return torch.optim.SGD(self.parameters(), lr=0.02, momentum=0.99)`.
Modelled state-passing: the hook returns the optimizer together with the
(unchanged) module. -/
def configure_optimizers {M P : Type} (parameters : M → P) (self : M) :
    Optim P × M :=
  (⟨OptimAlgo.sgd, parameters self, 2 / 100, 99 / 100⟩, self)

/-- `d[k]` on a Python dict modelled as an association list (`none` models
`KeyError`). -/
def dictGet {L : Type} (d : List (String × L)) (k : String) : Option L :=
  (d.find? fun p => p.1 == k).map Prod.snd

/-- `torch.stack(xs).mean()` for a list of scalar losses (as rationals):
fails on the empty list (`torch.stack` raises there), otherwise the
arithmetic mean. -/
def stackMean (xs : List ℚ) : Option ℚ :=
  match xs with
  | [] => none
  | _ => some (xs.sum / xs.length)

/-- The list comprehension `[x[key] for x in outputs]` (`none` models a
`KeyError` on any element). -/
def collectKey (key : String) : List (List (String × ℚ)) → Option (List ℚ)
  | [] => some []
  | d :: ds =>
    (dictGet d key).bind fun l =>
    (collectKey key ds).bind fun ls =>
    some (l :: ls)

/-- `UNet.validation_end`:
`torch.stack([x["val_loss"] for x in outputs]).mean()`, returned as
`{"val_loss": mean}`. -/
def validation_end (outputs : List (List (String × ℚ))) :
    Option (List (String × ℚ)) :=
  (collectKey ("val_loss") outputs).bind fun ls =>
  (stackMean ls).bind fun m =>
  some [(("val_loss"), m)]

/-- `UNet.test_end`:
`torch.stack([x["test_loss"] for x in outputs]).mean()`, returned as
`{"test_loss": mean}`. -/
def test_end (outputs : List (List (String × ℚ))) :
    Option (List (String × ℚ)) :=
  (collectKey ("test_loss") outputs).bind fun ls =>
  (stackMean ls).bind fun m =>
  some [(("test_loss"), m)]

/-! ### Concrete tensors for counterexamples and witnesses -/

/-- A 5-D tensor of shape `(1, 1, 3, 2, 2)` with distinguishable entries. -/
def tOdd : Tensor5 :=
  ⟨1, 1, 3, 2, 2, fun i j a b c => (i : Int) + 2 * j + 3 * a + 5 * b + 7 * c + 1⟩

/-- A 5-D tensor of shape `(1, 1, 2, 2, 2)`. -/
def tSmall : Tensor5 :=
  ⟨1, 1, 2, 2, 2, fun _ _ _ _ _ => 0⟩

/-- A 5-D tensor of shape `(2, 3, 8, 9, 10)` with distinguishable entries. -/
def tBig : Tensor5 :=
  ⟨2, 3, 8, 9, 10, fun i j a b c => (i : Int) + 2 * j + 3 * a + 5 * b + 7 * c + 1⟩

/-- A 5-D tensor of shape `(2, 3, 4, 5, 6)`. -/
def tMid : Tensor5 :=
  ⟨2, 3, 4, 5, 6, fun _ _ _ _ _ => 0⟩

/-- A 5-D tensor of shape `(2, 3, 9, 11, 13)`, strictly larger than `tBig`
in every spatial dimension. -/
def tHuge : Tensor5 :=
  ⟨2, 3, 9, 11, 13, fun _ _ _ _ _ => 0⟩

/-- The input shape `(1, 1, 92, 92, 92)` used to exercise `forwardTrace`. -/
def s92 : Shape := ⟨1, 1, 92, 92, 92⟩

/-- The result of `forwardTrace 1 1 s92`: output shape `(1, 1, 4, 4, 4)` and
the operator trace with crop size differences 8, 32, 80. -/
def p92 : Shape × List LOp :=
  (⟨1, 1, 4, 4, 4⟩,
    unetOps 1 1 (LOp.crop 8 8 8) (LOp.crop 32 32 32) (LOp.crop 80 80 80))

/-! ### Helper lemmas -/

/-- Python floor division by 2 agrees with Euclidean division by 2. -/
theorem fdiv_two_eq (x : Int) : x.fdiv 2 = x / 2 :=
  Int.fdiv_eq_ediv x (by omega)

theorem conv3dShape_eq (cin cout k n d1 d2 d3 o1 o2 o3 : Nat)
    (h1 : k ≤ d1) (h2 : k ≤ d2) (h3 : k ≤ d3)
    (g1 : o1 = d1 - k + 1) (g2 : o2 = d2 - k + 1) (g3 : o3 = d3 - k + 1) :
    conv3dShape cin cout k ⟨n, cin, d1, d2, d3⟩ = some ⟨n, cout, o1, o2, o3⟩ := by
  unfold conv3dShape
  dsimp only
  rw [if_pos ⟨rfl, h1, h2, h3⟩]
  congr 2 <;> omega

theorem doubleConvShape_eq (c0 c1 c2 n d1 d2 d3 o1 o2 o3 : Nat)
    (h1 : 5 ≤ d1) (h2 : 5 ≤ d2) (h3 : 5 ≤ d3)
    (g1 : o1 = d1 - 4) (g2 : o2 = d2 - 4) (g3 : o3 = d3 - 4) :
    doubleConvShape c0 c1 c2 ⟨n, c0, d1, d2, d3⟩ = some ⟨n, c2, o1, o2, o3⟩ := by
  unfold doubleConvShape
  rw [conv3dShape_eq c0 c1 3 n d1 d2 d3 (d1 - 2) (d2 - 2) (d3 - 2)
      (by omega) (by omega) (by omega) (by omega) (by omega) (by omega)]
  rw [Option.some_bind]
  unfold batchnorm3dShape
  rw [if_pos rfl, Option.some_bind]
  unfold reluShape
  rw [Option.some_bind]
  rw [conv3dShape_eq c1 c2 3 n (d1 - 2) (d2 - 2) (d3 - 2) o1 o2 o3
      (by omega) (by omega) (by omega) (by omega) (by omega) (by omega)]
  rw [Option.some_bind]
  rw [if_pos rfl, Option.some_bind]

theorem maxpool3dShape_eq (n c d1 d2 d3 o1 o2 o3 : Nat)
    (h1 : 2 ≤ d1) (h2 : 2 ≤ d2) (h3 : 2 ≤ d3)
    (g1 : o1 = d1 / 2) (g2 : o2 = d2 / 2) (g3 : o3 = d3 / 2) :
    maxpool3dShape 2 ⟨n, c, d1, d2, d3⟩ = some ⟨n, c, o1, o2, o3⟩ := by
  unfold maxpool3dShape
  dsimp only
  rw [if_pos ⟨h1, h2, h3⟩]
  congr 2 <;> omega

theorem convtranspose3dShape_eq (cin cout n d1 d2 d3 o1 o2 o3 : Nat)
    (h1 : 1 ≤ d1) (h2 : 1 ≤ d2) (h3 : 1 ≤ d3)
    (g1 : o1 = 2 * d1) (g2 : o2 = 2 * d2) (g3 : o3 = 2 * d3) :
    convtranspose3dShape cin cout 2 2 ⟨n, cin, d1, d2, d3⟩ = some ⟨n, cout, o1, o2, o3⟩ := by
  unfold convtranspose3dShape
  dsimp only
  rw [if_pos ⟨rfl, h1, h2, h3⟩]
  congr 2 <;> omega

theorem decoderStageShape_eq (uc b1 b2 n ec e1 e2 e3 x1 x2 x3 o1 o2 o3 : Nat)
    (cr1 cr2 cr3 : Int)
    (hx1 : 3 ≤ x1) (hx2 : 3 ≤ x2) (hx3 : 3 ≤ x3)
    (hc1 : 2 * x1 ≤ e1) (hc2 : 2 * x2 ≤ e2) (hc3 : 2 * x3 ≤ e3)
    (hp1 : (e1 - 2 * x1) % 2 = 0) (hp2 : (e2 - 2 * x2) % 2 = 0)
    (hp3 : (e3 - 2 * x3) % 2 = 0)
    (go1 : o1 = 2 * x1 - 4) (go2 : o2 = 2 * x2 - 4) (go3 : o3 = 2 * x3 - 4)
    (gc1 : cr1 = (e1 : Int) - 2 * (x1 : Int))
    (gc2 : cr2 = (e2 : Int) - 2 * (x2 : Int))
    (gc3 : cr3 = (e3 : Int) - 2 * (x3 : Int)) :
    decoderStageShape uc (ec + uc) b1 b2 ⟨n, ec, e1, e2, e3⟩ ⟨n, uc, x1, x2, x3⟩
      = some (⟨n, b2, o1, o2, o3⟩, LOp.crop cr1 cr2 cr3) := by
  unfold decoderStageShape
  rw [convtranspose3dShape_eq uc uc n x1 x2 x3 (2 * x1) (2 * x2) (2 * x3)
      (by omega) (by omega) (by omega) rfl rfl rfl]
  rw [Option.some_bind]
  have eT1 : ((e1 : Int) - 2 * (((e1 : Int) - ((2 * x1 : Nat) : Int)).fdiv 2)).toNat
      = 2 * x1 := by rw [fdiv_two_eq]; omega
  have eT2 : ((e2 : Int) - 2 * (((e2 : Int) - ((2 * x2 : Nat) : Int)).fdiv 2)).toNat
      = 2 * x2 := by rw [fdiv_two_eq]; omega
  have eT3 : ((e3 : Int) - 2 * (((e3 : Int) - ((2 * x3 : Nat) : Int)).fdiv 2)).toNat
      = 2 * x3 := by rw [fdiv_two_eq]; omega
  unfold catShape cropShape
  dsimp only
  rw [eT1, eT2, eT3, if_pos ⟨rfl, rfl, rfl, rfl⟩, Option.some_bind]
  rw [doubleConvShape_eq (ec + uc) b1 b2 n (2 * x1) (2 * x2) (2 * x3) o1 o2 o3
      (by omega) (by omega) (by omega) go1 go2 go3]
  rw [Option.some_bind]
  unfold cropOpOf
  dsimp only
  congr 3 <;> push_cast <;> omega

theorem decoderStageShape_snd (uc b0 b1 b2 : Nat) (xe x : Shape)
    (p : Shape × LOp) (h : decoderStageShape uc b0 b1 b2 xe x = some p) :
    ∃ u : Shape, p.2 = cropOpOf xe u := by
  simp only [decoderStageShape, Option.bind_eq_some] at h
  obtain ⟨u, hu, cc, hcc, d, hd, he⟩ := h
  obtain rfl : (d, cropOpOf xe u) = p := by
    exact Option.some.inj he
  exact ⟨u, rfl⟩

theorem forwardTrace_ops (inC outC : Nat) (s : Shape) (p : Shape × List LOp)
    (h : forwardTrace inC outC s = some p) :
    ∃ a1 b1 c1 a2 b2 c2 a3 b3 c3 : Int,
      p.2 = unetOps inC outC (LOp.crop a1 b1 c1) (LOp.crop a2 b2 c2)
        (LOp.crop a3 b3 c3) := by
  simp only [forwardTrace, Option.bind_eq_some] at h
  obtain ⟨e, he, s1, hs1, s2, hs2, s3, hs3, out, hout, hp⟩ := h
  obtain rfl : (out, unetOps inC outC s1.2 s2.2 s3.2) = p := Option.some.inj hp
  obtain ⟨u1, e1⟩ := decoderStageShape_snd _ _ _ _ _ _ _ hs1
  obtain ⟨u2, e2⟩ := decoderStageShape_snd _ _ _ _ _ _ _ hs2
  obtain ⟨u3, e3⟩ := decoderStageShape_snd _ _ _ _ _ _ _ hs3
  refine ⟨(e.x3.d1 : Int) - u1.d1, (e.x3.d2 : Int) - u1.d2,
    (e.x3.d3 : Int) - u1.d3, (e.x2.d1 : Int) - u2.d1, (e.x2.d2 : Int) - u2.d2,
    (e.x2.d3 : Int) - u2.d3, (e.x1.d1 : Int) - u3.d1, (e.x1.d2 : Int) - u3.d2,
    (e.x1.d3 : Int) - u3.d3, ?_⟩
  dsimp only
  rw [e1, e2, e3]
  rfl

theorem forwardTrace_refines_claim (inC outC : Nat) (s : Shape) :
    (forwardTrace inC outC s).map Prod.fst = forwardShapeClaim inC outC s := by
  unfold forwardTrace forwardShapeClaim encoderShape
  cases doubleConvShape inC 32 64 s with
  | none => rfl
  | some x1 =>
  simp only [Option.some_bind]
  cases maxpool3dShape 2 x1 with
  | none => rfl
  | some p1 =>
  simp only [Option.some_bind]
  cases doubleConvShape 64 64 128 p1 with
  | none => rfl
  | some x2 =>
  simp only [Option.some_bind]
  cases maxpool3dShape 2 x2 with
  | none => rfl
  | some p2 =>
  simp only [Option.some_bind]
  cases doubleConvShape 128 128 256 p2 with
  | none => rfl
  | some x3 =>
  simp only [Option.some_bind]
  cases maxpool3dShape 2 x3 with
  | none => rfl
  | some p3 =>
  simp only [Option.some_bind]
  cases doubleConvShape 256 256 512 p3 with
  | none => rfl
  | some x4 =>
  simp only [Option.some_bind]
  unfold decoderStageShape decoderStageClaim
  cases convtranspose3dShape 512 512 2 2 x4 with
  | none => rfl
  | some u1 =>
  simp only [Option.some_bind]
  cases catShape (cropShape x3 u1) u1 with
  | none => rfl
  | some cc1 =>
  simp only [Option.some_bind]
  cases doubleConvShape (256 + 512) 256 256 cc1 with
  | none => rfl
  | some d1 =>
  simp only [Option.some_bind]
  cases convtranspose3dShape 256 256 2 2 d1 with
  | none => rfl
  | some u2 =>
  simp only [Option.some_bind]
  cases catShape (cropShape x2 u2) u2 with
  | none => rfl
  | some cc2 =>
  simp only [Option.some_bind]
  cases doubleConvShape (128 + 256) 128 128 cc2 with
  | none => rfl
  | some d2 =>
  simp only [Option.some_bind]
  cases convtranspose3dShape 128 128 2 2 d2 with
  | none => rfl
  | some u3 =>
  simp only [Option.some_bind]
  cases catShape (cropShape x1 u3) u3 with
  | none => rfl
  | some cc3 =>
  simp only [Option.some_bind]
  cases doubleConvShape (64 + 128) 64 64 cc3 with
  | none => rfl
  | some d3 =>
  simp only [Option.some_bind]
  cases conv3dShape 64 outC 1 d3 with
  | none => rfl
  | some out => rfl

theorem unetOps_mem (inC outC : Nat) (r1 r2 r3 : LOp) :
    ∀ q ∈ unetOps inC outC r1 r2 r3,
      isListedKind q = true ∨ q = LOp.relu ∨ q = LOp.cat ∨
        q = r1 ∨ q = r2 ∨ q = r3 := by
  simp [unetOps, doubleConvOps, List.forall_mem_append, List.forall_mem_cons,
    isListedKind]

theorem collectKey_map (key : String) (ls : List ℚ) :
    collectKey key (ls.map fun l => [((key), l)]) = some ls := by
  induction ls with
  | nil => rfl
  | cons a as ih =>
    have h1 : dictGet [((key), a)] (key) = some a := by
      simp [dictGet]
    simp [collectKey, h1, ih]

/-! ### The claims -/

/-- Claim C1, amended: when every spatial dimension of `x_encoder` is at least the corresponding dimension of `x` and every difference is even, `center_crop x_encoder x` returns a tensor whose three spatial dimensions equal those of `x`. -/
theorem spec_C1 (xe x : Tensor5)
    (hb1 : x.d1 ≤ xe.d1) (hb2 : x.d2 ≤ xe.d2) (hb3 : x.d3 ≤ xe.d3)
    (he1 : (xe.d1 - x.d1) % 2 = 0) (he2 : (xe.d2 - x.d2) % 2 = 0)
    (he3 : (xe.d3 - x.d3) % 2 = 0) :
    (center_crop xe x).d1 = x.d1 ∧ (center_crop xe x).d2 = x.d2 ∧
      (center_crop xe x).d3 = x.d3 := by
  unfold center_crop padLast3 crop1 crop2 crop3
  dsimp only
  refine ⟨?_, ?_, ?_⟩ <;> rw [fdiv_two_eq] <;> omega

/-- Claim C1, counterexample to the original statement: for spatial sizes (3, 2, 2) against (2, 2, 2) the first size difference is odd, the computed crop is 0, and the cropped tensor keeps spatial size 3 instead of 2. -/
theorem spec_C1_counterexample :
    tSmall.d1 ≤ tOdd.d1 ∧ tSmall.d2 ≤ tOdd.d2 ∧ tSmall.d3 ≤ tOdd.d3 ∧
    ¬ ((center_crop tOdd tSmall).d1 = tSmall.d1 ∧
       (center_crop tOdd tSmall).d2 = tSmall.d2 ∧
       (center_crop tOdd tSmall).d3 = tSmall.d3) := by
  decide

/-- Witness for `spec_C1` at the concrete tensors `tBig` and `tMid`. -/
theorem spec_C1_witness :
    tMid.d1 ≤ tBig.d1 ∧ tMid.d2 ≤ tBig.d2 ∧ tMid.d3 ≤ tBig.d3 ∧
    (tBig.d1 - tMid.d1) % 2 = 0 ∧ (tBig.d2 - tMid.d2) % 2 = 0 ∧
    (tBig.d3 - tMid.d3) % 2 = 0 ∧
    ((center_crop tBig tMid).d1 = tMid.d1 ∧
      (center_crop tBig tMid).d2 = tMid.d2 ∧
      (center_crop tBig tMid).d3 = tMid.d3) :=
  ⟨by decide, by decide, by decide, by decide, by decide, by decide,
    spec_C1 tBig tMid (by decide) (by decide) (by decide) (by decide)
      (by decide) (by decide)⟩

/-- Claim C2: for an input of shape `(n, in_channels, d1, d2, d3)` with each spatial size congruent to 4 mod 8 and at least 92, `forward` completes (all crops and concatenations align), every size difference seen by `center_crop` is non-negative and even (concretely 8, 32, 80), and the output has shape `(n, out_channels, d1-88, d2-88, d3-88)`. -/
theorem spec_C2 (n inC outC d1 d2 d3 : Nat)
    (h1 : d1 % 8 = 4) (h1L : 92 ≤ d1) (h2 : d2 % 8 = 4) (h2L : 92 ≤ d2)
    (h3 : d3 % 8 = 4) (h3L : 92 ≤ d3) :
    forwardTrace inC outC ⟨n, inC, d1, d2, d3⟩
      = some (⟨n, outC, d1 - 88, d2 - 88, d3 - 88⟩,
          unetOps inC outC (LOp.crop 8 8 8) (LOp.crop 32 32 32)
            (LOp.crop 80 80 80))
      ∧ ∀ a b c : Int,
          LOp.crop a b c ∈ unetOps inC outC (LOp.crop 8 8 8)
            (LOp.crop 32 32 32) (LOp.crop 80 80 80) →
          0 ≤ a ∧ 0 ≤ b ∧ 0 ≤ c ∧ 2 ∣ a ∧ 2 ∣ b ∧ 2 ∣ c := by
  refine ⟨?_, ?_⟩
  swap
  · intro a b c hmem
    rcases unetOps_mem inC outC _ _ _ _ hmem with hk | he | he | he | he | he
    · simp [isListedKind] at hk
    · exact absurd he (by simp)
    · exact absurd he (by simp)
    · injection he with e1 e2 e3
      subst e1; subst e2; subst e3
      decide
    · injection he with e1 e2 e3
      subst e1; subst e2; subst e3
      decide
    · injection he with e1 e2 e3
      subst e1; subst e2; subst e3
      decide
  obtain ⟨k1, rfl⟩ : ∃ k, d1 = 8 * k + 4 := ⟨d1 / 8, by omega⟩
  obtain ⟨k2, rfl⟩ : ∃ k, d2 = 8 * k + 4 := ⟨d2 / 8, by omega⟩
  obtain ⟨k3, rfl⟩ : ∃ k, d3 = 8 * k + 4 := ⟨d3 / 8, by omega⟩
  unfold forwardTrace encoderShape
  rw [doubleConvShape_eq inC 32 64 n (8 * k1 + 4) (8 * k2 + 4) (8 * k3 + 4)
      (8 * k1) (8 * k2) (8 * k3) (by omega) (by omega) (by omega)
      (by omega) (by omega) (by omega), Option.some_bind]
  rw [maxpool3dShape_eq n 64 (8 * k1) (8 * k2) (8 * k3)
      (4 * k1) (4 * k2) (4 * k3) (by omega) (by omega) (by omega)
      (by omega) (by omega) (by omega), Option.some_bind]
  rw [doubleConvShape_eq 64 64 128 n (4 * k1) (4 * k2) (4 * k3)
      (4 * k1 - 4) (4 * k2 - 4) (4 * k3 - 4) (by omega) (by omega) (by omega)
      (by omega) (by omega) (by omega), Option.some_bind]
  rw [maxpool3dShape_eq n 128 (4 * k1 - 4) (4 * k2 - 4) (4 * k3 - 4)
      (2 * k1 - 2) (2 * k2 - 2) (2 * k3 - 2) (by omega) (by omega) (by omega)
      (by omega) (by omega) (by omega), Option.some_bind]
  rw [doubleConvShape_eq 128 128 256 n (2 * k1 - 2) (2 * k2 - 2) (2 * k3 - 2)
      (2 * k1 - 6) (2 * k2 - 6) (2 * k3 - 6) (by omega) (by omega) (by omega)
      (by omega) (by omega) (by omega), Option.some_bind]
  rw [maxpool3dShape_eq n 256 (2 * k1 - 6) (2 * k2 - 6) (2 * k3 - 6)
      (k1 - 3) (k2 - 3) (k3 - 3) (by omega) (by omega) (by omega)
      (by omega) (by omega) (by omega), Option.some_bind]
  rw [doubleConvShape_eq 256 256 512 n (k1 - 3) (k2 - 3) (k3 - 3)
      (k1 - 7) (k2 - 7) (k3 - 7) (by omega) (by omega) (by omega)
      (by omega) (by omega) (by omega), Option.some_bind]
  rw [Option.some_bind]
  dsimp only
  rw [decoderStageShape_eq 512 256 256 n 256 (2 * k1 - 6) (2 * k2 - 6) (2 * k3 - 6)
      (k1 - 7) (k2 - 7) (k3 - 7) (2 * k1 - 18) (2 * k2 - 18) (2 * k3 - 18)
      8 8 8 (by omega) (by omega) (by omega) (by omega) (by omega) (by omega)
      (by omega) (by omega) (by omega) (by omega) (by omega) (by omega)
      (by omega) (by omega) (by omega), Option.some_bind]
  dsimp only
  rw [decoderStageShape_eq 256 128 128 n 128 (4 * k1 - 4) (4 * k2 - 4) (4 * k3 - 4)
      (2 * k1 - 18) (2 * k2 - 18) (2 * k3 - 18)
      (4 * k1 - 40) (4 * k2 - 40) (4 * k3 - 40)
      32 32 32 (by omega) (by omega) (by omega) (by omega) (by omega) (by omega)
      (by omega) (by omega) (by omega) (by omega) (by omega) (by omega)
      (by omega) (by omega) (by omega), Option.some_bind]
  dsimp only
  rw [decoderStageShape_eq 128 64 64 n 64 (8 * k1) (8 * k2) (8 * k3)
      (4 * k1 - 40) (4 * k2 - 40) (4 * k3 - 40)
      (8 * k1 - 84) (8 * k2 - 84) (8 * k3 - 84)
      80 80 80 (by omega) (by omega) (by omega) (by omega) (by omega) (by omega)
      (by omega) (by omega) (by omega) (by omega) (by omega) (by omega)
      (by omega) (by omega) (by omega), Option.some_bind]
  dsimp only
  rw [conv3dShape_eq 64 outC 1 n (8 * k1 - 84) (8 * k2 - 84) (8 * k3 - 84)
      (8 * k1 + 4 - 88) (8 * k2 + 4 - 88) (8 * k3 + 4 - 88)
      (by omega) (by omega) (by omega) (by omega) (by omega) (by omega),
    Option.some_bind]

/-- Witness for `spec_C2` at input shape `(1, 1, 92, 92, 92)`. -/
theorem spec_C2_witness :
    92 % 8 = 4 ∧ 92 ≤ 92 ∧
    (forwardTrace 1 1 ⟨1, 1, 92, 92, 92⟩
        = some (⟨1, 1, 92 - 88, 92 - 88, 92 - 88⟩,
            unetOps 1 1 (LOp.crop 8 8 8) (LOp.crop 32 32 32)
              (LOp.crop 80 80 80))
      ∧ ∀ a b c : Int,
          LOp.crop a b c ∈ unetOps 1 1 (LOp.crop 8 8 8)
            (LOp.crop 32 32 32) (LOp.crop 80 80 80) →
          0 ≤ a ∧ 0 ≤ b ∧ 0 ≤ c ∧ 2 ∣ a ∧ 2 ∣ b ∧ 2 ∣ c) :=
  ⟨by decide, by decide,
    spec_C2 1 1 1 92 92 92 (by decide) (by decide) (by decide) (by decide)
      (by decide) (by decide)⟩

/-- Claim C3: `forward` applies the layers in the fixed claimed order.
First conjunct: whenever `forward` completes, its operator trace is exactly
`unetOps` — the four encoder blocks with max-pools between consecutive
blocks, the three decoder stages (transposed convolution, crop,
concatenation, decoder block), and the final kernel-size-1 convolution —
with some crop size differences.  Second conjunct: the shape behaviour of
`forward` coincides with `forwardShapeClaim`, the stage-by-stage
composition written from the claim (cropping `x3`, then `x2`, then `x1`).
-/
theorem spec_C3 :
    (∀ (inC outC : Nat) (s : Shape) (p : Shape × List LOp),
        forwardTrace inC outC s = some p →
        ∃ a1 b1 c1 a2 b2 c2 a3 b3 c3 : Int,
          p.2 = unetOps inC outC (LOp.crop a1 b1 c1) (LOp.crop a2 b2 c2)
            (LOp.crop a3 b3 c3)) ∧
    (∀ (inC outC : Nat) (s : Shape),
        (forwardTrace inC outC s).map Prod.fst = forwardShapeClaim inC outC s) :=
  ⟨forwardTrace_ops, forwardTrace_refines_claim⟩

/-- Witness for `spec_C3` at input shape `s92`. -/
theorem spec_C3_witness :
    ∃ a1 b1 c1 a2 b2 c2 a3 b3 c3 : Int,
      p92.2 = unetOps 1 1 (LOp.crop a1 b1 c1) (LOp.crop a2 b2 c2)
        (LOp.crop a3 b3 c3) :=
  spec_C3.1 1 1 s92 p92 (by decide)

/-- Claim C4: each training-loop hook only forwards the batch input and
applies the built-in loss: `training_step` returns exactly the single-entry
dict mapping the key loss to BCEWithLogitsLoss of the forwarded input and
the masks, and `validation_step` / `test_step` return exactly the
single-entry dicts mapping val_loss / test_loss to the cross entropy of the
forwarded `x` against `y`, for every interpretation of the network and the
losses. -/
theorem spec_C4 {V L : Type} (B : Builtins V L) (fw : V → V)
    (batch : TrainBatch V) (vb tb : V × V) (i j k : Nat) :
    training_step B fw batch i
        = [(("loss"), B.bceWithLogitsLoss (fw batch.input) batch.masks)] ∧
    validation_step B fw vb j
        = [(("val_loss"), B.crossEntropy (fw vb.1) vb.2)] ∧
    test_step B fw tb k
        = [(("test_loss"), B.crossEntropy (fw tb.1) tb.2)] :=
  ⟨rfl, rfl, rfl⟩

/-- Claim C5: `configure_optimizers` returns a single SGD optimizer over the module parameters with learning rate 0.02 and momentum 0.99, and leaves the module unchanged. -/
theorem spec_C5 {M P : Type} (parameters : M → P) (self : M) :
    (configure_optimizers parameters self).1.algo = OptimAlgo.sgd ∧
    (configure_optimizers parameters self).1.params = parameters self ∧
    (configure_optimizers parameters self).1.lr = 1 / 50 ∧
    (configure_optimizers parameters self).1.momentum = 99 / 100 ∧
    (configure_optimizers parameters self).2 = self := by
  refine ⟨rfl, rfl, by norm_num [configure_optimizers], rfl, rfl⟩

/-- Claim C6: in the cropping regime (each decoder size at most the encoder size) `center_crop` removes exactly `(a-b)/2` elements from the low and from the high end of each spatial dimension, leaves the batch and channel dimensions unchanged, and every element of the retained centered window keeps its value from `x_encoder`. -/
theorem spec_C6 (xe x : Tensor5)
    (hb1 : x.d1 ≤ xe.d1) (hb2 : x.d2 ≤ xe.d2) (hb3 : x.d3 ≤ xe.d3) :
    (center_crop xe x).n = xe.n ∧ (center_crop xe x).c = xe.c ∧
    (center_crop xe x).d1 = xe.d1 - 2 * ((xe.d1 - x.d1) / 2) ∧
    (center_crop xe x).d2 = xe.d2 - 2 * ((xe.d2 - x.d2) / 2) ∧
    (center_crop xe x).d3 = xe.d3 - 2 * ((xe.d3 - x.d3) / 2) ∧
    ∀ i j a b c,
      a < xe.d1 - 2 * ((xe.d1 - x.d1) / 2) →
      b < xe.d2 - 2 * ((xe.d2 - x.d2) / 2) →
      c < xe.d3 - 2 * ((xe.d3 - x.d3) / 2) →
      (center_crop xe x).data i j a b c
        = xe.data i j (a + (xe.d1 - x.d1) / 2) (b + (xe.d2 - x.d2) / 2)
            (c + (xe.d3 - x.d3) / 2) := by
  unfold center_crop padLast3 crop1 crop2 crop3
  dsimp only
  simp only [fdiv_two_eq]
  refine ⟨trivial, trivial, by omega, by omega, by omega, ?_⟩
  intro i j a b c ha hb hc
  rw [if_pos (by omega)]
  congr 1 <;> omega

/-- Witness for `spec_C6` at the concrete tensors `tBig` and `tMid`. -/
theorem spec_C6_witness :
    tMid.d1 ≤ tBig.d1 ∧ tMid.d2 ≤ tBig.d2 ∧ tMid.d3 ≤ tBig.d3 ∧
    ((center_crop tBig tMid).n = tBig.n ∧ (center_crop tBig tMid).c = tBig.c ∧
      (center_crop tBig tMid).d1 = tBig.d1 - 2 * ((tBig.d1 - tMid.d1) / 2) ∧
      (center_crop tBig tMid).d2 = tBig.d2 - 2 * ((tBig.d2 - tMid.d2) / 2) ∧
      (center_crop tBig tMid).d3 = tBig.d3 - 2 * ((tBig.d3 - tMid.d3) / 2) ∧
      ∀ i j a b c,
        a < tBig.d1 - 2 * ((tBig.d1 - tMid.d1) / 2) →
        b < tBig.d2 - 2 * ((tBig.d2 - tMid.d2) / 2) →
        c < tBig.d3 - 2 * ((tBig.d3 - tMid.d3) / 2) →
        (center_crop tBig tMid).data i j a b c
          = tBig.data i j (a + (tBig.d1 - tMid.d1) / 2)
              (b + (tBig.d2 - tMid.d2) / 2) (c + (tBig.d3 - tMid.d3) / 2)) :=
  ⟨by decide, by decide, by decide,
    spec_C6 tBig tMid (by decide) (by decide) (by decide)⟩

/-- Claim C7, counterexample to the original statement: the graph traversed
by `forward` contains `ReLU`, which is none of the four listed kinds (3D
convolution, batch normalization, max-pooling, transposed convolution). -/
theorem spec_C7_counterexample :
    forwardTrace 1 1 s92 = some p92 ∧
    LOp.relu ∈ p92.2 ∧ isListedKind LOp.relu = false := by
  exact ⟨by decide, by decide, rfl⟩

/-- Claim C7, amended: every operator in the graph traversed by `forward`
is one of the four listed kinds, or ReLU, or the center-crop, or the
channel concatenation. -/
theorem spec_C7 (inC outC : Nat) (s : Shape) (p : Shape × List LOp)
    (h : forwardTrace inC outC s = some p) :
    ∀ op ∈ p.2, isListedKind op = true ∨ op = LOp.relu ∨
      (∃ a b c : Int, op = LOp.crop a b c) ∨ op = LOp.cat := by
  obtain ⟨a1, b1, c1, a2, b2, c2, a3, b3, c3, hp⟩ :=
    forwardTrace_ops inC outC s p h
  intro op hop
  rw [hp] at hop
  rcases unetOps_mem inC outC _ _ _ op hop with hk | rfl | rfl | rfl | rfl | rfl
  · exact Or.inl hk
  · exact Or.inr (Or.inl rfl)
  · exact Or.inr (Or.inr (Or.inr rfl))
  · exact Or.inr (Or.inr (Or.inl ⟨a1, b1, c1, rfl⟩))
  · exact Or.inr (Or.inr (Or.inl ⟨a2, b2, c2, rfl⟩))
  · exact Or.inr (Or.inr (Or.inl ⟨a3, b3, c3, rfl⟩))

/-- Witness for `spec_C7` at input shape `s92` and the operator `relu`. -/
theorem spec_C7_witness :
    isListedKind LOp.relu = true ∨ LOp.relu = LOp.relu ∨
      (∃ a b c : Int, LOp.relu = LOp.crop a b c) ∨ LOp.relu = LOp.cat :=
  spec_C7 1 1 s92 p92 (by decide) LOp.relu (by decide)

/-- Claim C8: the computation graph of `forward` is input-independent and deterministic: any two successful runs apply the identical operator sequence (up to the crop size differences, which are themselves equal for equal inputs), and equal inputs give equal results. -/
theorem spec_C8 (inC outC : Nat) (s s' : Shape) (p p' : Shape × List LOp)
    (h : forwardTrace inC outC s = some p)
    (h' : forwardTrace inC outC s' = some p') :
    p.2.map eraseCropDiffs = p'.2.map eraseCropDiffs ∧ (s = s' → p = p') := by
  constructor
  · obtain ⟨a1, b1, c1, a2, b2, c2, a3, b3, c3, hp⟩ :=
      forwardTrace_ops inC outC s p h
    obtain ⟨a1', b1', c1', a2', b2', c2', a3', b3', c3', hp'⟩ :=
      forwardTrace_ops inC outC s' p' h'
    rw [hp, hp']
    rfl
  · rintro rfl
    rw [h] at h'
    exact Option.some.inj h'

/-- Witness for `spec_C8` at input shape `s92`. -/
theorem spec_C8_witness :
    p92.2.map eraseCropDiffs = p92.2.map eraseCropDiffs ∧
    (s92 = s92 → p92 = p92) :=
  spec_C8 1 1 s92 s92 p92 p92 (by decide) (by decide)

/-- Claim C9: in any spatial dimension where `x` is strictly larger than `x_encoder` the computed crop amount is negative and `center_crop` symmetrically zero-pads `x_encoder` in that dimension instead of raising an error; every entry outside the copied window is 0. -/
theorem spec_C9 (xe x : Tensor5) :
    (xe.d1 < x.d1 → crop1 xe x < 0 ∧
      (center_crop xe x).d1 = xe.d1 + 2 * (crop1 xe x).natAbs) ∧
    (xe.d2 < x.d2 → crop2 xe x < 0 ∧
      (center_crop xe x).d2 = xe.d2 + 2 * (crop2 xe x).natAbs) ∧
    (xe.d3 < x.d3 → crop3 xe x < 0 ∧
      (center_crop xe x).d3 = xe.d3 + 2 * (crop3 xe x).natAbs) ∧
    ∀ i j a b c : Nat,
      ((a : Int) + crop1 xe x < 0 ∨ (xe.d1 : Int) ≤ (a : Int) + crop1 xe x ∨
       (b : Int) + crop2 xe x < 0 ∨ (xe.d2 : Int) ≤ (b : Int) + crop2 xe x ∨
       (c : Int) + crop3 xe x < 0 ∨ (xe.d3 : Int) ≤ (c : Int) + crop3 xe x) →
      (center_crop xe x).data i j a b c = 0 := by
  unfold center_crop padLast3 crop1 crop2 crop3
  dsimp only
  simp only [fdiv_two_eq]
  refine ⟨?_, ?_, ?_, ?_⟩
  · intro h
    constructor
    · omega
    · omega
  · intro h
    constructor
    · omega
    · omega
  · intro h
    constructor
    · omega
    · omega
  · intro i j a b c h
    rw [if_neg (by omega)]

/-- Witness for `spec_C9` at the concrete tensors `tBig` and `tHuge`. -/
theorem spec_C9_witness :
    (tBig.d1 < tHuge.d1 ∧ crop1 tBig tHuge < 0 ∧
      (center_crop tBig tHuge).d1 = tBig.d1 + 2 * (crop1 tBig tHuge).natAbs) ∧
    (tBig.d2 < tHuge.d2 ∧ crop2 tBig tHuge < 0 ∧
      (center_crop tBig tHuge).d2 = tBig.d2 + 2 * (crop2 tBig tHuge).natAbs) ∧
    (tBig.d3 < tHuge.d3 ∧ crop3 tBig tHuge < 0 ∧
      (center_crop tBig tHuge).d3 = tBig.d3 + 2 * (crop3 tBig tHuge).natAbs) :=
  ⟨⟨by decide, (spec_C9 tBig tHuge).1 (by decide)⟩,
   ⟨by decide, (spec_C9 tBig tHuge).2.1 (by decide)⟩,
   ⟨by decide, (spec_C9 tBig tHuge).2.2.1 (by decide)⟩⟩

/-- Claim C10: on a non-empty list of step outputs `validation_end` and `test_end` return the arithmetic mean of the per-batch losses under the matching key, and on the empty list both fail (the stack of an empty sequence raises). -/
theorem spec_C10 :
    (∀ ls : List ℚ, ls ≠ [] →
      validation_end (ls.map fun l => [(("val_loss"), l)])
          = some [(("val_loss"), ls.sum / ls.length)] ∧
      test_end (ls.map fun l => [(("test_loss"), l)])
          = some [(("test_loss"), ls.sum / ls.length)]) ∧
    validation_end [] = none ∧ test_end [] = none := by
  refine ⟨?_, rfl, rfl⟩
  intro ls h
  unfold validation_end test_end
  rw [collectKey_map ("val_loss") ls, collectKey_map ("test_loss") ls,
    Option.some_bind, Option.some_bind]
  cases ls with
  | nil => exact absurd rfl h
  | cons a as =>
    unfold stackMean
    exact ⟨rfl, rfl⟩

/-- Witness for `spec_C10` at the concrete loss list `[1, 2]`. -/
theorem spec_C10_witness :
    ([(1 : ℚ), 2] ≠ []) ∧
    (validation_end ([(1 : ℚ), 2].map fun l => [(("val_loss"), l)])
        = some [(("val_loss"), [(1 : ℚ), 2].sum / [(1 : ℚ), 2].length)] ∧
      test_end ([(1 : ℚ), 2].map fun l => [(("test_loss"), l)])
        = some [(("test_loss"), [(1 : ℚ), 2].sum / [(1 : ℚ), 2].length)]) :=
  ⟨by decide, spec_C10.1 [1, 2] (by decide)⟩
